import Mathlib

/-!
Shallow embedding of the cyclic task scheduler in main.c (project TempCycleDMA).

The program keeps six boolean flags, a latest temperature average (media), a
latest trend classification (t) and four start/end timestamp pairs as globals.
Five repeating timers each set one flag; the main loop repeatedly calls
control_states, which checks the flags in a fixed order, runs at most one task
per call, and hands the consumed flag off to the next stage via update_states.

External collaborators (ADC sampling, trend classifier, OLED, NeoPixel driver,
the hardware clock) are out of scope per the spec; they are modelled as an
environment of pure oracles, and their calls appear as events in a trace.
Machine floats (media) are modelled as rationals: the only operation the
program performs on media is the comparison `media < 1` and pass-through.
Timestamps (absolute_time_t) are modelled as integers (microseconds); each
call of get_absolute_time reads the environment clock at the current tick
counter and advances the counter.
-/

namespace CyclicSched

/-- Modelled from the spec: TrendCategory, the enumerated classification
(rising / falling / stable) produced by the out-of-scope trend collaborator
(tarefa3_tendencia.h is not part of src). The constructor names follow the
Portuguese naming of the repository. -/
inductive Tendencia
  | subindo
  | descendo
  | estavel
deriving DecidableEq

/-- Modelled from the spec: an RGB color value for the NeoPixel driver
(neopixel_driver.h and testes_cores.h are not part of src); only its identity
matters to the scheduler core. -/
structure Color where
  val : ℕ
deriving DecidableEq

/-- Modelled from the spec: COR_BRANCA, the fixed alert color that
task_5_alert_neopixel passes to npSetAll; its concrete channel values are a
collaborator concern, so it is an arbitrary fixed constant here. -/
def COR_BRANCA : Color := ⟨0⟩

/-- The five pipeline tasks, named after the task functions in main.c. -/
inductive Task
  | read_temperature
  | alert_neopixel
  | thermal_trend
  | show_oled
  | update_neopixel_matrix
deriving DecidableEq

/-- NeoPixel driver operations invoked by task_5_alert_neopixel. -/
inductive NpOp
  | setAll (c : Color)
  | clear
  | write
deriving DecidableEq

/-- The structured content of the line printed by show_duration_tasks_execution:
the printf format string, the temperature, the four durations in seconds (exact
rationals; the C code prints them with six decimals, which is exact for a
microsecond count divided by 1e6) and the trend label. -/
structure ReportLine where
  format : String
  temperatura : ℚ
  t1 : ℚ
  t2 : ℚ
  t3 : ℚ
  t4 : ℚ
  tendencia_label : String
deriving DecidableEq

/-- Observable events of one scheduler invocation: which task function ran,
NeoPixel driver calls, the OLED render call, plain printf lines (identified by
their format string) and the Reporter line. -/
inductive Event
  | exec (tk : Task)
  | np (op : NpOp)
  | oled_render (media : ℚ) (t : Tendencia)
  | matrix_trend (t : Tendencia)
  | print_str (s : String)
  | reporter (line : ReportLine)
deriving DecidableEq

/-- The shared global state of main.c: the six stage flags, media, t, the four
start/end timestamp pairs, plus a tick counter indexing successive
get_absolute_time calls (the clock itself lives in the environment). -/
structure State where
  can_read_temp : Bool
  can_alert_neopixel : Bool
  can_thermal_trend : Bool
  can_show_oled : Bool
  can_update_neopixel_matrix : Bool
  can_show_durations : Bool
  media : ℚ
  t : Tendencia
  ini_tarefa1 : ℤ
  fim_tarefa1 : ℤ
  ini_tarefa2 : ℤ
  fim_tarefa2 : ℤ
  ini_tarefa3 : ℤ
  fim_tarefa3 : ℤ
  ini_tarefa4 : ℤ
  fim_tarefa4 : ℤ
  tick : ℕ
deriving DecidableEq

/-- The out-of-scope collaborators as pure oracles: tarefa1_obter_media_temp
(sample), tarefa3_analisa_tendencia (classify), tendencia_para_texto (label)
and the hardware clock get_absolute_time (now, indexed by call count). -/
structure Env where
  sample : ℚ
  classify : ℚ → Tendencia
  label : Tendencia → String
  now : ℕ → ℤ

/-- The initial values of the globals in main.c: can_read_temp = true, all
other flags false; media, t and the timestamps are zero-initialized statics
(t, an enum, is modelled by a fixed constructor). -/
def init_state : State where
  can_read_temp := true
  can_alert_neopixel := false
  can_thermal_trend := false
  can_show_oled := false
  can_update_neopixel_matrix := false
  can_show_durations := false
  media := 0
  t := Tendencia.estavel
  ini_tarefa1 := 0
  fim_tarefa1 := 0
  ini_tarefa2 := 0
  fim_tarefa2 := 0
  ini_tarefa3 := 0
  fim_tarefa3 := 0
  ini_tarefa4 := 0
  fim_tarefa4 := 0
  tick := 0

/-- get_absolute_time: read the environment clock at the current tick and
advance the tick counter. -/
def get_absolute_time (env : Env) (s : State) : ℤ × State :=
  (env.now s.tick, { s with tick := s.tick + 1 })

/-- absolute_time_diff_us(ini, fim): microseconds from ini to fim. -/
def absolute_time_diff_us (ini fim : ℤ) : ℤ := fim - ini

/-- update_states(this, next) from main.c: `*next = *this; *this = false`.
Returns the pair (new value of this, new value of next). -/
def update_states (this_state next_state : Bool) : Bool × Bool :=
  (false, this_state)

/-- task_1_read_temperature: stamp ini_tarefa1, store the sampled average in
media, stamp fim_tarefa1, then clear can_read_temp (the comment in the source
reads `Reset the flag to avoid re-triggering`). -/
def task_1_read_temperature (env : Env) (s : State) : State × List Event :=
  let p1 := get_absolute_time env s
  let s1 := { p1.2 with ini_tarefa1 := p1.1 }
  let s2 := { s1 with media := env.sample }
  let p2 := get_absolute_time env s2
  let s3 := { p2.2 with fim_tarefa1 := p2.1 }
  ({ s3 with can_read_temp := false }, [])

/-- task_5_alert_neopixel: if media < 1 then npSetAll(COR_BRANCA); npWrite()
else npClear(); npWrite(); then printf("Task 5! \n"). Touches no flag and no
timestamp. -/
def task_5_alert_neopixel (s : State) : State × List Event :=
  let ops :=
    if s.media < 1 then
      [Event.np (NpOp.setAll COR_BRANCA), Event.np NpOp.write]
    else
      [Event.np NpOp.clear, Event.np NpOp.write]
  (s, ops ++ [Event.print_str "Task 5! "])

/-- task_3_thermal_trend: stamp ini_tarefa3, classify media into t, stamp
fim_tarefa3. -/
def task_3_thermal_trend (env : Env) (s : State) : State × List Event :=
  let p1 := get_absolute_time env s
  let s1 := { p1.2 with ini_tarefa3 := p1.1 }
  let s2 := { s1 with t := env.classify s1.media }
  let p2 := get_absolute_time env s2
  let s3 := { p2.2 with fim_tarefa3 := p2.1 }
  (s3, [])

/-- Format string of the printf inside task_2_show_oled. -/
def oled_print_format : String := "Exibindo no OLED: %.2f °C | Tendência: %s"

/-- task_2_show_oled: stamp ini_tarefa2, render media and t on the OLED, print
the OLED line, stamp fim_tarefa2. -/
def task_2_show_oled (env : Env) (s : State) : State × List Event :=
  let p1 := get_absolute_time env s
  let s1 := { p1.2 with ini_tarefa2 := p1.1 }
  let evs := [Event.oled_render s1.media s1.t, Event.print_str oled_print_format]
  let p2 := get_absolute_time env s1
  let s2 := { p2.2 with fim_tarefa2 := p2.1 }
  (s2, evs)

/-- Format string of the printf inside task_4_update_neopixel_matrix. -/
def matrix_print_format : String := "Atualizando matriz NeoPixel com a tendência: %s"

/-- task_4_update_neopixel_matrix: stamp ini_tarefa4, apply the trend palette
to the matrix, print the matrix line, stamp fim_tarefa4. -/
def task_4_update_neopixel_matrix (env : Env) (s : State) : State × List Event :=
  let p1 := get_absolute_time env s
  let s1 := { p1.2 with ini_tarefa4 := p1.1 }
  let evs := [Event.matrix_trend s1.t, Event.print_str matrix_print_format]
  let p2 := get_absolute_time env s1
  let s2 := { p2.2 with fim_tarefa4 := p2.1 }
  (s2, evs)

/-- The printf format string of show_duration_tasks_execution in main.c. -/
def duration_report_format : String :=
  "Temperatura: %.2f °C | T1: %.6fs | T2: %.6fs | T3: %.6fs | T4: %.6fs | Tendência: %s"

/-- show_duration_tasks_execution: compute the four elapsed times in
microseconds from the tarefa1..tarefa4 timestamp pairs and emit one line with
the temperature, the four durations divided by 1e6, and the trend label. -/
def show_duration_tasks_execution (env : Env) (s : State) : ReportLine :=
  let tempo1_us := absolute_time_diff_us s.ini_tarefa1 s.fim_tarefa1
  let tempo2_us := absolute_time_diff_us s.ini_tarefa2 s.fim_tarefa2
  let tempo3_us := absolute_time_diff_us s.ini_tarefa3 s.fim_tarefa3
  let tempo4_us := absolute_time_diff_us s.ini_tarefa4 s.fim_tarefa4
  { format := duration_report_format
    temperatura := s.media
    t1 := (tempo1_us : ℚ) / 1000000
    t2 := (tempo2_us : ℚ) / 1000000
    t3 := (tempo3_us : ℚ) / 1000000
    t4 := (tempo4_us : ℚ) / 1000000
    tendencia_label := env.label s.t }

/-- Format string of the printf in the can_thermal_trend branch of
control_states. -/
def trend_print_format : String := "Tendência: %s"

/-- control_states from main.c: check the five stage flags in the fixed order
can_read_temp, can_alert_neopixel, can_thermal_trend, can_show_oled,
can_update_neopixel_matrix; run the task of the first set flag, hand off via
update_states (the terminal branch instead clears its own flag and calls the
Reporter), and return. Each branch returns immediately, so at most one task
runs per call. -/
def control_states (env : Env) (s : State) : State × List Event :=
  if s.can_read_temp then
    let p := task_1_read_temperature env s
    let u := update_states p.1.can_read_temp p.1.can_alert_neopixel
    ({ p.1 with can_read_temp := u.1, can_alert_neopixel := u.2 },
      Event.exec Task.read_temperature :: p.2)
  else if s.can_alert_neopixel then
    let p := task_5_alert_neopixel s
    let u := update_states p.1.can_alert_neopixel p.1.can_thermal_trend
    ({ p.1 with can_alert_neopixel := u.1, can_thermal_trend := u.2 },
      Event.exec Task.alert_neopixel :: p.2)
  else if s.can_thermal_trend then
    let p := task_3_thermal_trend env s
    let u := update_states p.1.can_thermal_trend p.1.can_show_oled
    ({ p.1 with can_thermal_trend := u.1, can_show_oled := u.2 },
      Event.exec Task.thermal_trend :: (p.2 ++ [Event.print_str trend_print_format]))
  else if s.can_show_oled then
    let p := task_2_show_oled env s
    let u := update_states p.1.can_show_oled p.1.can_update_neopixel_matrix
    ({ p.1 with can_show_oled := u.1, can_update_neopixel_matrix := u.2 },
      Event.exec Task.show_oled :: p.2)
  else if s.can_update_neopixel_matrix then
    let s0 := { s with can_update_neopixel_matrix := false }
    let p := task_4_update_neopixel_matrix env s0
    (p.1, Event.exec Task.update_neopixel_matrix ::
      (p.2 ++ [Event.reporter (show_duration_tasks_execution env p.1)]))
  else
    (s, [])

/-- The five timer callback functions of main.c. -/
inductive TimerCb
  | repeating_timer_callback
  | task5_callback
  | task3_callback
  | task2_callback
  | task4_callback
deriving DecidableEq

/-- Run one timer callback: each sets its single flag to true and returns true
(keep the repeating timer armed). -/
def timer_callback_run : TimerCb → State → State × Bool
  | TimerCb.repeating_timer_callback, s => ({ s with can_read_temp := true }, true)
  | TimerCb.task5_callback, s => ({ s with can_alert_neopixel := true }, true)
  | TimerCb.task3_callback, s => ({ s with can_thermal_trend := true }, true)
  | TimerCb.task2_callback, s => ({ s with can_show_oled := true }, true)
  | TimerCb.task4_callback, s => ({ s with can_update_neopixel_matrix := true }, true)

/-- The five stage flags, named as in the spec data model. -/
inductive Flag
  | read_temp
  | alert_neopixel
  | thermal_trend
  | show_oled
  | update_matrix
deriving DecidableEq

/-- Set a single stage flag to true, leaving everything else unchanged. -/
def set_flag : Flag → State → State
  | Flag.read_temp, s => { s with can_read_temp := true }
  | Flag.alert_neopixel, s => { s with can_alert_neopixel := true }
  | Flag.thermal_trend, s => { s with can_thermal_trend := true }
  | Flag.show_oled, s => { s with can_show_oled := true }
  | Flag.update_matrix, s => { s with can_update_neopixel_matrix := true }

/-- The flag that each timer callback targets, per the spec mapping. -/
def timer_target : TimerCb → Flag
  | TimerCb.repeating_timer_callback => Flag.read_temp
  | TimerCb.task5_callback => Flag.alert_neopixel
  | TimerCb.task3_callback => Flag.thermal_trend
  | TimerCb.task2_callback => Flag.show_oled
  | TimerCb.task4_callback => Flag.update_matrix

/-- The five add_repeating_timer_ms registrations performed once at the top of
main, in source order: (period in ms, callback). -/
def main_timer_registrations : List (ℕ × TimerCb) :=
  [(1000, TimerCb.repeating_timer_callback),
   (1200, TimerCb.task5_callback),
   (1250, TimerCb.task3_callback),
   (1300, TimerCb.task2_callback),
   (1350, TimerCb.task4_callback)]

/-- The tasks executed in a trace, in order. -/
def executed_tasks (evs : List Event) : List Task :=
  evs.filterMap fun e =>
    match e with
    | Event.exec tk => some tk
    | _ => none

/-- The Reporter lines emitted in a trace, in order. -/
def reporter_lines (evs : List Event) : List ReportLine :=
  evs.filterMap fun e =>
    match e with
    | Event.reporter line => some line
    | _ => none

/-- The NeoPixel driver calls in a trace, in order. -/
def np_ops (evs : List Event) : List NpOp :=
  evs.filterMap fun e =>
    match e with
    | Event.np op => some op
    | _ => none

/-- Run n consecutive scheduler invocations, concatenating their traces. -/
def run_sched (env : Env) (s : State) : ℕ → State × List Event
  | 0 => (s, [])
  | n + 1 =>
    let p := control_states env s
    let q := run_sched env p.1 n
    (q.1, p.2 ++ q.2)

/-- States reachable from the initial globals: scheduler invocations from the
main loop and timer callbacks from interrupt context, in any interleaving
(callbacks are modelled as atomic between invocations). -/
inductive Reachable (env : Env) : State → Prop
  | init : Reachable env init_state
  | sched {s : State} : Reachable env s → Reachable env (control_states env s).1
  | timer {s : State} (cb : TimerCb) :
      Reachable env s → Reachable env (timer_callback_run cb s).1

/-- The task bound to the highest-priority set flag, in the spec priority order
ReadTemperature > AlertMatrix > AnalyzeTrend > ShowDisplay > UpdateMatrix;
none when no stage flag is set. -/
def highest_priority_set (s : State) : Option Task :=
  if s.can_read_temp then some Task.read_temperature
  else if s.can_alert_neopixel then some Task.alert_neopixel
  else if s.can_thermal_trend then some Task.thermal_trend
  else if s.can_show_oled then some Task.show_oled
  else if s.can_update_neopixel_matrix then some Task.update_neopixel_matrix
  else none

/-- A concrete environment for evaluating the model: sampling returns 25,
classification is constantly stable, the clock ticks one microsecond per
get_absolute_time call. -/
def env0 : Env where
  sample := 25
  classify := fun _ => Tendencia.estavel
  label := fun _ => "estavel"
  now := fun n => (n : ℤ)

theorem executed_tasks_append (l1 l2 : List Event) :
    executed_tasks (l1 ++ l2) = executed_tasks l1 ++ executed_tasks l2 :=
  List.filterMap_append l1 l2 _

theorem executed_tasks_nil : executed_tasks [] = [] := rfl

theorem executed_tasks_cons_exec (tk : Task) (l : List Event) :
    executed_tasks (Event.exec tk :: l) = tk :: executed_tasks l := rfl

theorem executed_tasks_cons_np (op : NpOp) (l : List Event) :
    executed_tasks (Event.np op :: l) = executed_tasks l := rfl

theorem executed_tasks_cons_oled (m : ℚ) (tc : Tendencia) (l : List Event) :
    executed_tasks (Event.oled_render m tc :: l) = executed_tasks l := rfl

theorem executed_tasks_cons_matrix (tc : Tendencia) (l : List Event) :
    executed_tasks (Event.matrix_trend tc :: l) = executed_tasks l := rfl

theorem executed_tasks_cons_print (m : String) (l : List Event) :
    executed_tasks (Event.print_str m :: l) = executed_tasks l := rfl

theorem executed_tasks_cons_reporter (line : ReportLine) (l : List Event) :
    executed_tasks (Event.reporter line :: l) = executed_tasks l := rfl

theorem executed_tasks_task_5 (s : State) :
    executed_tasks (task_5_alert_neopixel s).2 = [] := by
  unfold task_5_alert_neopixel executed_tasks
  split <;> rfl

/-- C1 (amended): every scheduler invocation executes exactly the task bound to
the highest-priority set flag in the order ReadTemperature > AlertMatrix >
AnalyzeTrend > ShowDisplay > UpdateMatrix, and no task at all when no stage
flag is set; it never executes more than one task per call. -/
theorem scheduler_runs_highest_priority_task (env : Env) (s : State) :
    executed_tasks (control_states env s).2 = (highest_priority_set s).toList := by
  cases h1 : s.can_read_temp <;> cases h2 : s.can_alert_neopixel <;>
    cases h3 : s.can_thermal_trend <;> cases h4 : s.can_show_oled <;>
      cases h5 : s.can_update_neopixel_matrix <;>
        simp [control_states, highest_priority_set, executed_tasks_append,
          executed_tasks_task_5, executed_tasks_nil, executed_tasks_cons_exec,
          executed_tasks_cons_np, executed_tasks_cons_oled,
          executed_tasks_cons_matrix, executed_tasks_cons_print,
          executed_tasks_cons_reporter, h1, h2, h3, h4, h5,
          task_1_read_temperature, task_3_thermal_trend,
          task_2_show_oled, task_4_update_neopixel_matrix, get_absolute_time]

/-- C1 (counterexample to the claim as stated): the configuration with all
five stage flags clear is reachable (it is the very state produced by the
first scheduler invocation from the initial globals, before any timer fires),
and a scheduler invocation there executes zero tasks, not exactly one. -/
theorem all_flags_clear_state_reachable_and_idle :
    Reachable env0 (control_states env0 init_state).1 ∧
    (control_states env0 init_state).1.can_read_temp = false ∧
    (control_states env0 init_state).1.can_alert_neopixel = false ∧
    (control_states env0 init_state).1.can_thermal_trend = false ∧
    (control_states env0 init_state).1.can_show_oled = false ∧
    (control_states env0 init_state).1.can_update_neopixel_matrix = false ∧
    executed_tasks (control_states env0 (control_states env0 init_state).1).2 = [] :=
  ⟨Reachable.sched Reachable.init, by decide, by decide, by decide, by decide,
    by decide, by decide⟩

/-- C9: in the initial state can_read_temp is true and the other four stage
flags are false, so the very first scheduler invocation executes
ReadTemperature, before any timer has fired. -/
theorem initial_state_runs_read_first (env : Env) :
    init_state.can_read_temp = true ∧
    init_state.can_alert_neopixel = false ∧
    init_state.can_thermal_trend = false ∧
    init_state.can_show_oled = false ∧
    init_state.can_update_neopixel_matrix = false ∧
    executed_tasks (control_states env init_state).2 = [Task.read_temperature] := by
  refine ⟨rfl, rfl, rfl, rfl, rfl, ?_⟩
  simp [control_states, init_state, executed_tasks, task_1_read_temperature,
    get_absolute_time]

/-- C10: when all five stage flags are false, a scheduler invocation executes
no task, emits nothing, and returns the state completely unchanged (flags,
media, t, all timestamps). -/
theorem idle_invocation_is_noop (env : Env) (s : State)
    (h1 : s.can_read_temp = false) (h2 : s.can_alert_neopixel = false)
    (h3 : s.can_thermal_trend = false) (h4 : s.can_show_oled = false)
    (h5 : s.can_update_neopixel_matrix = false) :
    control_states env s = (s, []) := by
  simp [control_states, h1, h2, h3, h4, h5]

/-- Witness for C10 at a concrete all-false state. -/
theorem idle_invocation_is_noop_check :
    ({ init_state with can_read_temp := false } : State).can_read_temp = false ∧
    control_states env0 { init_state with can_read_temp := false } =
      ({ init_state with can_read_temp := false }, []) :=
  ⟨rfl, idle_invocation_is_noop env0 { init_state with can_read_temp := false }
    rfl rfl rfl rfl rfl⟩

theorem reporter_lines_append (l1 l2 : List Event) :
    reporter_lines (l1 ++ l2) = reporter_lines l1 ++ reporter_lines l2 :=
  List.filterMap_append l1 l2 _

theorem reporter_lines_nil : reporter_lines [] = [] := rfl

theorem reporter_lines_cons_exec (tk : Task) (l : List Event) :
    reporter_lines (Event.exec tk :: l) = reporter_lines l := rfl

theorem reporter_lines_cons_np (op : NpOp) (l : List Event) :
    reporter_lines (Event.np op :: l) = reporter_lines l := rfl

theorem reporter_lines_cons_oled (m : ℚ) (tc : Tendencia) (l : List Event) :
    reporter_lines (Event.oled_render m tc :: l) = reporter_lines l := rfl

theorem reporter_lines_cons_matrix (tc : Tendencia) (l : List Event) :
    reporter_lines (Event.matrix_trend tc :: l) = reporter_lines l := rfl

theorem reporter_lines_cons_print (m : String) (l : List Event) :
    reporter_lines (Event.print_str m :: l) = reporter_lines l := rfl

theorem reporter_lines_cons_reporter (line : ReportLine) (l : List Event) :
    reporter_lines (Event.reporter line :: l) = line :: reporter_lines l := rfl

theorem reporter_lines_task_5 (s : State) :
    reporter_lines (task_5_alert_neopixel s).2 = [] := by
  unfold task_5_alert_neopixel reporter_lines
  split <;> rfl

/-- C2 (code evaluation at the failing input): the scheduler invocation from
the initial state executes ReadTemperature and afterwards can_read_temp is
false — but can_alert_neopixel is also false, not true: the hand-off the claim
promises never happens, because task_1_read_temperature clears can_read_temp
before update_states copies it into can_alert_neopixel. -/
theorem read_stage_does_not_arm_alert_stage :
    executed_tasks (control_states env0 init_state).2 = [Task.read_temperature] ∧
    (control_states env0 init_state).1.can_read_temp = false ∧
    (control_states env0 init_state).1.can_alert_neopixel = false :=
  ⟨by decide, by decide, by decide⟩

/-- C3 (code evaluation at the failing input): five consecutive scheduler
invocations from the initial state (only can_read_temp set, no timer firing)
execute only ReadTemperature — the cascade dies after the first stage and the
Reporter is never invoked, instead of the five stages running one per
invocation with one Reporter line. -/
theorem single_read_firing_stalls_after_one_stage :
    executed_tasks (run_sched env0 init_state 5).2 = [Task.read_temperature] ∧
    reporter_lines (run_sched env0 init_state 5).2 = [] :=
  ⟨by decide, by decide⟩

/-- C4 (code evaluation at the failing input): from the reachable state where
the AlertMatrix timer has fired once at startup (can_read_temp and
can_alert_neopixel both true), the scheduler invocation executes
ReadTemperature and sets can_alert_neopixel to false — it drops a flag of a
stage it did not execute. -/
theorem read_stage_drops_pending_alert_flag :
    Reachable env0 (timer_callback_run TimerCb.task5_callback init_state).1 ∧
    (timer_callback_run TimerCb.task5_callback init_state).1.can_read_temp = true ∧
    (timer_callback_run TimerCb.task5_callback init_state).1.can_alert_neopixel
      = true ∧
    executed_tasks (control_states env0
      (timer_callback_run TimerCb.task5_callback init_state).1).2
      = [Task.read_temperature] ∧
    (control_states env0
      (timer_callback_run TimerCb.task5_callback init_state).1).1.can_alert_neopixel
      = false :=
  ⟨Reachable.timer TimerCb.task5_callback Reachable.init,
    by decide, by decide, by decide, by decide⟩

/-- C5: a scheduler invocation that executes the terminal stage UpdateMatrix
(its flag set, all higher-priority flags clear) leaves
can_update_neopixel_matrix false, sets no other stage flag (all remain false),
and emits exactly one Reporter line. -/
theorem terminal_stage_clears_flag_and_reports_once (env : Env) (s : State)
    (h1 : s.can_read_temp = false) (h2 : s.can_alert_neopixel = false)
    (h3 : s.can_thermal_trend = false) (h4 : s.can_show_oled = false)
    (h5 : s.can_update_neopixel_matrix = true) :
    executed_tasks (control_states env s).2 = [Task.update_neopixel_matrix] ∧
    (control_states env s).1.can_read_temp = false ∧
    (control_states env s).1.can_alert_neopixel = false ∧
    (control_states env s).1.can_thermal_trend = false ∧
    (control_states env s).1.can_show_oled = false ∧
    (control_states env s).1.can_update_neopixel_matrix = false ∧
    (reporter_lines (control_states env s).2).length = 1 := by
  simp [control_states, h1, h2, h3, h4, h5, task_4_update_neopixel_matrix,
    get_absolute_time, executed_tasks_append, executed_tasks_nil,
    executed_tasks_cons_exec, executed_tasks_cons_matrix,
    executed_tasks_cons_print, executed_tasks_cons_reporter,
    reporter_lines_append, reporter_lines_nil, reporter_lines_cons_exec,
    reporter_lines_cons_matrix, reporter_lines_cons_print,
    reporter_lines_cons_reporter]

/-- The state in which only the terminal-stage flag is set, used as concrete
input for the terminal-stage witness. -/
def terminal_only_state : State :=
  { init_state with can_read_temp := false, can_update_neopixel_matrix := true }

/-- Witness for C5: the terminal-stage theorem applied at the concrete state
with only can_update_neopixel_matrix set, in the concrete environment. -/
theorem terminal_stage_clears_flag_and_reports_once_check :
    (terminal_only_state.can_read_temp = false ∧
      terminal_only_state.can_alert_neopixel = false ∧
      terminal_only_state.can_thermal_trend = false ∧
      terminal_only_state.can_show_oled = false ∧
      terminal_only_state.can_update_neopixel_matrix = true) ∧
    (executed_tasks (control_states env0 terminal_only_state).2
        = [Task.update_neopixel_matrix] ∧
      (control_states env0 terminal_only_state).1.can_read_temp = false ∧
      (control_states env0 terminal_only_state).1.can_alert_neopixel = false ∧
      (control_states env0 terminal_only_state).1.can_thermal_trend = false ∧
      (control_states env0 terminal_only_state).1.can_show_oled = false ∧
      (control_states env0 terminal_only_state).1.can_update_neopixel_matrix
        = false ∧
      (reporter_lines (control_states env0 terminal_only_state).2).length = 1) :=
  ⟨⟨rfl, rfl, rfl, rfl, rfl⟩,
    terminal_stage_clears_flag_and_reports_once env0 terminal_only_state
      rfl rfl rfl rfl rfl⟩

/-- C6: task_5_alert_neopixel compares media against the threshold 1: strictly
below it issues npSetAll(COR_BRANCA) followed by npWrite, at or above (hence
also at exactly 1) it issues npClear followed by npWrite. -/
theorem alert_threshold_behavior (s : State) :
    (s.media < 1 →
      np_ops (task_5_alert_neopixel s).2 = [NpOp.setAll COR_BRANCA, NpOp.write]) ∧
    (1 ≤ s.media →
      np_ops (task_5_alert_neopixel s).2 = [NpOp.clear, NpOp.write]) := by
  refine ⟨fun h => ?_, fun h => ?_⟩
  · simp only [task_5_alert_neopixel]
    rw [if_pos h]
    rfl
  · simp only [task_5_alert_neopixel]
    rw [if_neg (not_lt.mpr h)]
    rfl

/-- Witness for C6 at the boundary: with media exactly 1 the matrix is cleared
and committed, not filled. -/
theorem alert_threshold_boundary_check :
    (1 : ℚ) ≤ ({ init_state with media := 1 } : State).media ∧
    np_ops (task_5_alert_neopixel { init_state with media := 1 }).2 =
      [NpOp.clear, NpOp.write] :=
  ⟨by decide, (alert_threshold_behavior { init_state with media := 1 }).2
    (by decide)⟩

/-- C7: the Reporter line carries the literal printf format of the source, the
temperature equals media, the four durations are (end - start) in microseconds
divided by 1e6 taken from the tarefa1..tarefa4 timestamp pairs — which are
written, respectively, by task_1_read_temperature (ReadTemperature),
task_2_show_oled (ShowDisplay), task_3_thermal_trend (AnalyzeTrend) and
task_4_update_neopixel_matrix (UpdateMatrix) — the %s field is the trend
label, and a scheduler invocation emits exactly one such line when it runs the
terminal stage and none otherwise. -/
theorem reporter_line_format_and_fields (env : Env) (s : State) :
    (show_duration_tasks_execution env s).format =
      "Temperatura: %.2f °C | T1: %.6fs | T2: %.6fs | T3: %.6fs | T4: %.6fs | Tendência: %s" ∧
    (show_duration_tasks_execution env s).temperatura = s.media ∧
    (show_duration_tasks_execution env s).t1 =
      ((absolute_time_diff_us s.ini_tarefa1 s.fim_tarefa1 : ℤ) : ℚ) / 1000000 ∧
    (show_duration_tasks_execution env s).t2 =
      ((absolute_time_diff_us s.ini_tarefa2 s.fim_tarefa2 : ℤ) : ℚ) / 1000000 ∧
    (show_duration_tasks_execution env s).t3 =
      ((absolute_time_diff_us s.ini_tarefa3 s.fim_tarefa3 : ℤ) : ℚ) / 1000000 ∧
    (show_duration_tasks_execution env s).t4 =
      ((absolute_time_diff_us s.ini_tarefa4 s.fim_tarefa4 : ℤ) : ℚ) / 1000000 ∧
    (show_duration_tasks_execution env s).tendencia_label = env.label s.t ∧
    (task_1_read_temperature env s).1.ini_tarefa1 = env.now s.tick ∧
    (task_1_read_temperature env s).1.fim_tarefa1 = env.now (s.tick + 1) ∧
    (task_2_show_oled env s).1.ini_tarefa2 = env.now s.tick ∧
    (task_2_show_oled env s).1.fim_tarefa2 = env.now (s.tick + 1) ∧
    (task_3_thermal_trend env s).1.ini_tarefa3 = env.now s.tick ∧
    (task_3_thermal_trend env s).1.fim_tarefa3 = env.now (s.tick + 1) ∧
    (task_4_update_neopixel_matrix env s).1.ini_tarefa4 = env.now s.tick ∧
    (task_4_update_neopixel_matrix env s).1.fim_tarefa4 = env.now (s.tick + 1) ∧
    (reporter_lines (control_states env s).2).length =
      (if s.can_read_temp = false ∧ s.can_alert_neopixel = false ∧
          s.can_thermal_trend = false ∧ s.can_show_oled = false ∧
          s.can_update_neopixel_matrix = true then 1 else 0) := by
  refine ⟨rfl, rfl, rfl, rfl, rfl, rfl, rfl, rfl, rfl, rfl, rfl, rfl, rfl, rfl,
    rfl, ?_⟩
  cases h1 : s.can_read_temp <;> cases h2 : s.can_alert_neopixel <;>
    cases h3 : s.can_thermal_trend <;> cases h4 : s.can_show_oled <;>
      cases h5 : s.can_update_neopixel_matrix <;>
        simp [control_states, h1, h2, h3, h4, h5, task_1_read_temperature,
          task_3_thermal_trend, task_2_show_oled, task_4_update_neopixel_matrix,
          get_absolute_time, reporter_lines_append, reporter_lines_nil,
          reporter_lines_cons_exec, reporter_lines_cons_np,
          reporter_lines_cons_oled, reporter_lines_cons_matrix,
          reporter_lines_cons_print, reporter_lines_cons_reporter,
          reporter_lines_task_5]

/-- C8: main performs exactly the five timer registrations
1000 ms to the ReadTemperature flag, 1200 ms to AlertMatrix, 1250 ms to
AnalyzeTrend, 1300 ms to ShowDisplay, 1350 ms to UpdateMatrix, and every timer
callback sets only its single target flag to true (all other state untouched)
and returns true so the repeating timer stays armed. -/
theorem timer_registrations_and_callbacks :
    main_timer_registrations.length = 5 ∧
    main_timer_registrations.map (fun r => (r.1, timer_target r.2)) =
      [(1000, Flag.read_temp), (1200, Flag.alert_neopixel),
       (1250, Flag.thermal_trend), (1300, Flag.show_oled),
       (1350, Flag.update_matrix)] ∧
    ∀ cb : TimerCb, ∀ s : State,
      (timer_callback_run cb s).2 = true ∧
      (timer_callback_run cb s).1 = set_flag (timer_target cb) s :=
  ⟨rfl, rfl, fun cb s => by cases cb <;> exact ⟨rfl, rfl⟩⟩

end CyclicSched
